import Mathlib

/-!
Verification development for the escavador-parser repository.

The core under specification is the change-detection and notification
pipeline of src/main.py: `search_people_on_escavador` iterates a configured
list of people, fetches a search result for each, augments it with the
subject's monitor flag, compares it to the stored snapshot, and persists
plus notifies on NEW or UPDATED classifications.

Python dicts are embedded as association lists of string keys and JSON-like
values, with lookup, key assignment and structural (dict) equality defined
below. External collaborators (the API fetcher, the Firestore document
store, the pub/sub notifier and the environment) are embedded as explicit
data: a `World` record for the read-only environment, an association-list
`Store` for the snapshot store, and a trace of `Event`s recording every
collaborator call the run performs. Python exceptions are embedded with
`Except`/`Option`, and an uncaught exception escaping the entry point is
the `RunOutcome.raised` outcome.
-/

namespace Escavador

/-- A JSON-like value, the value type of the dict embedding. -/
inductive JVal where
  | str (s : String)
  | num (n : Int)
  | bool (b : Bool)
  | null
  deriving DecidableEq, Repr

/-- A Python dict embedded as an association list from keys to values. -/
abbrev Record := List (String × JVal)

/-- Dict key lookup: first binding of the key, if any. -/
def lookupKey : Record → String → Option JVal
  | [], _ => none
  | (k, v) :: rest, key => if k = key then some v else lookupKey rest key

/-- Dict key assignment, as in the Python statement `d[key] = v`: replace
the existing binding in place, else append a new binding at the end. -/
def dictSet : Record → String → JVal → Record
  | [], key, v => [(key, v)]
  | (k, w) :: rest, key, v =>
      if k = key then (key, v) :: rest else (k, w) :: dictSet rest key v

/-- Every binding of `a` is present in `b` with the same value. -/
def subDict (a b : Record) : Bool :=
  a.all fun kv => decide (lookupKey b kv.1 = some kv.2)

/-- Structural dict equality, as the Python comparison `a == b` on dicts:
the two mappings agree on every key, insertion order not significant. -/
def dictEq (a b : Record) : Bool :=
  subDict a b && subDict b a

/-- The decoded payload of `api.search_person`: the run only accesses its
`items` list of candidate records. -/
structure SearchResult where
  items : List Record
  deriving DecidableEq, Repr

/-- Embeds `main._get_searched_person_record`: take the first item of the
raw search payload and set its `monitor_processes` key to the monitor flag.
Indexing `items[0]` on an empty list raises in Python; that failure is the
`none` result. -/
def _get_searched_person_record (raw_search_person_result : SearchResult)
    (monitor_processes : Bool) : Option Record :=
  match raw_search_person_result.items with
  | [] => none
  | person_dict :: _ =>
      some (dictSet person_dict "monitor_processes" (JVal.bool monitor_processes))

/-- One rendered section of a notification email body: a heading and the
profile record rendered (by json2html in the source) under it. -/
structure BodySec where
  heading : String
  profile : Option Record
  deriving DecidableEq, Repr

/-- The structural content of a notification email body: the h2 title and
the sections in order. The source builds this as a fixed HTML template with
the records converted to tables by `json2html.convert`. -/
structure EmailBody where
  title : String
  secs : List BodySec
  deriving DecidableEq, Repr

/-- Python truthiness of an optional dict: `None` and the empty dict are
falsy, every non-empty dict is truthy. -/
def truthy : Option Record → Bool
  | none => false
  | some r => !r.isEmpty

/-- Embeds `main._get_person_search_event_email_body`. When both profiles
are truthy it renders the two-section body, with the record passed as
`existing_profile` under the heading labelled New profile and the record
passed as `new_profile` under the heading labelled Existing profile record,
exactly as in the source template. When `existing_profile` is falsy it
renders the single-section new-record body. Otherwise the Python function
falls through and returns `None`. -/
def _get_person_search_event_email_body (existing_profile new_profile : Option Record) :
    Option EmailBody :=
  if truthy existing_profile && truthy new_profile then
    some ⟨"Escavador person search result record has differed from existing version.",
          [⟨"New profile:", existing_profile⟩,
           ⟨"Existing profile record:", new_profile⟩]⟩
  else if !truthy existing_profile then
    some ⟨"New escavador person search result record.",
          [⟨"New profile:", new_profile⟩]⟩
  else
    none

/-- The framing of a notification email subject line, one constructor per
f-string template in the source. -/
inductive EmailSubject where
  | newRecord (name : String)
  | updatedRecord (name : String)
  deriving DecidableEq, Repr

/-- The read-only environment of a run: the fetch capability (covering the
token retrieval and `api.search_person`, whose exceptions are the `error`
case), and the notification configuration read by `_notify_email`. -/
structure World where
  fetch : String → Except Unit SearchResult
  toEmails : Option String
  pubSubTopic : Option String
  publishOk : Bool

/-- Embeds `main._notify_email`. The body of the Python function is one big
try/except returning 1 on any caught exception and 0 on success: a missing
TO_EMAILS variable, a missing EMAIL_NOTIFY_PUBSUB_TOPIC variable, and a
failing publish call are each caught internally. -/
def _notify_email (subject : EmailSubject) (body : Option EmailBody) (w : World) : Nat :=
  match w.toEmails with
  | none => 1
  | some _ =>
    match w.pubSubTopic with
    | none => 1
    | some _ => if w.publishOk then 0 else 1

/-- The snapshot store: the `search_records` collection embedded as an
association list from document name to record. -/
abbrev Store := List (String × Record)

/-- Document read: `records_col_ref.document(name).get()`; `none` is a
document with `exists` false. -/
def storeGet : Store → String → Option Record
  | [], _ => none
  | (k, r) :: rest, key => if k = key then some r else storeGet rest key

/-- Document upsert: `person_doc_ref.set(record)`, replacing the whole
document (Firestore set without merge). -/
def storeSet : Store → String → Record → Store
  | [], key, r => [(key, r)]
  | (k, w) :: rest, key, r =>
      if k = key then (key, r) :: rest else (k, w) :: storeSet rest key r

/-- One configured subject: a dict with a `name` and a `monitor_processes`
flag, as decoded from the PEOPLE environment variable. -/
structure Person where
  name : String
  monitor_processes : Bool
  deriving DecidableEq, Repr

/-- One collaborator call or reporting action performed by the run, in
order. -/
inductive Event where
  | fetchCall (name : String)
  | storeGetEv (name : String)
  | storeSetEv (name : String) (r : Record)
  | notifyEv (subject : EmailSubject) (body : Option EmailBody)
  | logWarn (name : String)
  | logWarnConfig
  | logInfoNoRecord (name : String)
  | reportError
  deriving DecidableEq, Repr

/-- The classification the loop body reaches for one subject. NEW, UPDATED
and UNCHANGED are the three snapshot comparisons; NOITEMS is the empty
search result (soft skip); FAILED is a caught per-subject exception. -/
inductive Classification where
  | NEW
  | UPDATED
  | UNCHANGED
  | NOITEMS
  | FAILED
  deriving DecidableEq, Repr

/-- The result of processing one subject: the store afterwards, the trace
of collaborator calls, and the classification reached. -/
structure StepResult where
  store : Store
  events : List Event
  classification : Classification
  deriving Repr

/-- Embeds the body of the per-person loop of
`main.search_people_on_escavador` (the try block at lines 237 to 280). A
fetch failure is caught: warn, report, continue. An empty items list is
logged and skipped. Otherwise the augmented record is compared with the
stored document: no document gives NEW (set, then notify with the
new-record subject); a differing document gives UPDATED (set, then notify
with the updated subject and the two-profile body); an equal document gives
UNCHANGED with no further effect. -/
def processPerson (w : World) (st : Store) (p : Person) : StepResult :=
  match w.fetch p.name with
  | Except.error _ =>
      ⟨st, [Event.fetchCall p.name, Event.logWarn p.name, Event.reportError],
       Classification.FAILED⟩
  | Except.ok result =>
      match _get_searched_person_record result p.monitor_processes with
      | none =>
          ⟨st, [Event.fetchCall p.name, Event.logInfoNoRecord p.name],
           Classification.NOITEMS⟩
      | some person_new_search_record =>
          match storeGet st p.name with
          | none =>
              ⟨storeSet st p.name person_new_search_record,
               [Event.fetchCall p.name, Event.storeGetEv p.name,
                Event.storeSetEv p.name person_new_search_record,
                Event.notifyEv (EmailSubject.newRecord p.name)
                  (_get_person_search_event_email_body none
                    (some person_new_search_record))],
               Classification.NEW⟩
          | some person_existing_search_record =>
              if dictEq person_existing_search_record person_new_search_record = false then
                ⟨storeSet st p.name person_new_search_record,
                 [Event.fetchCall p.name, Event.storeGetEv p.name,
                  Event.storeSetEv p.name person_new_search_record,
                  Event.notifyEv (EmailSubject.updatedRecord p.name)
                    (_get_person_search_event_email_body
                      (some person_existing_search_record)
                      (some person_new_search_record))],
                 Classification.UPDATED⟩
              else
                ⟨st, [Event.fetchCall p.name, Event.storeGetEv p.name],
                 Classification.UNCHANGED⟩

/-- One decoded entry of the PEOPLE JSON array: either a well-formed
subject dict, or a value whose `name` or `monitor_processes` subscript
raises. That subscript happens at lines 234 to 235, outside the per-subject
try block, so a bad entry raises out of the whole run. -/
inductive ConfigEntry where
  | good (p : Person)
  | bad
  deriving Repr

/-- How the entry point ends: an explicit return code, or an uncaught
exception escaping it. -/
inductive RunOutcome where
  | ret (code : Nat)
  | raised
  deriving DecidableEq, Repr

/-- The observable result of a run: outcome, final store, event trace. -/
structure RunResult where
  outcome : RunOutcome
  store : Store
  events : List Event
  deriving Repr

/-- Embeds the subject loop of `main.search_people_on_escavador`: process
entries in order, threading the store; a malformed entry raises out of the
loop (its subscripts sit outside the try block), abandoning the remaining
entries; an exhausted loop returns 0. -/
def runEntries (w : World) (st : Store) : List ConfigEntry → RunResult
  | [] => ⟨RunOutcome.ret 0, st, []⟩
  | ConfigEntry.bad :: _ => ⟨RunOutcome.raised, st, []⟩
  | ConfigEntry.good p :: rest =>
      let res := processPerson w st p
      let r := runEntries w res.store rest
      ⟨r.outcome, r.store, res.events ++ r.events⟩

/-- The three ways reading and decoding the PEOPLE environment variable can
go. `missing`: the variable is unset, so `json.loads(None)` raises a
TypeError, which the except clause (which names only JSONDecodeError) does
not catch. `decodeError`: the variable is set but is not valid JSON, so
`json.loads` raises JSONDecodeError, which is caught. `decoded`: valid
JSON, giving the list of entries the loop iterates. -/
inductive ConfigOutcome where
  | missing
  | decodeError
  | decoded (entries : List ConfigEntry)
  deriving Repr

/-- Embeds `main.search_people_on_escavador`. A missing PEOPLE variable
raises out of the function uncaught; a JSON decode failure is caught,
logged, reported and returns 1 before any fetcher, store or notifier call;
a decoded configuration runs the subject loop and returns 0. -/
def search_people_on_escavador (cfg : ConfigOutcome) (w : World) (st : Store) : RunResult :=
  match cfg with
  | ConfigOutcome.missing => ⟨RunOutcome.raised, st, []⟩
  | ConfigOutcome.decodeError =>
      ⟨RunOutcome.ret 1, st, [Event.logWarnConfig, Event.reportError]⟩
  | ConfigOutcome.decoded entries => runEntries w st entries

/-- Embeds `main._handle_person_new_search_result`. The Python function
body is empty apart from its docstring: it reads nothing, writes nothing,
and falls off the end returning `None`. The store argument stands for the
`ppl_col_ref` collection reference parameter. -/
def _handle_person_new_search_result (person_new_search_record : Record)
    (person_name : String) (st : Store) : Option Record × Store × List Event :=
  (none, st, [])

/-- Is this event an upsert on the snapshot store? -/
def isStoreSetEv : Event → Bool
  | Event.storeSetEv _ _ => true
  | _ => false

/-- Is this event a notifier invocation? -/
def isNotifyEv : Event → Bool
  | Event.notifyEv _ _ => true
  | _ => false

/-- Is this event a call on the fetcher, store or notifier collaborator? -/
def isCollabCall : Event → Bool
  | Event.fetchCall _ => true
  | Event.storeGetEv _ => true
  | Event.storeSetEv _ _ => true
  | Event.notifyEv _ _ => true
  | _ => false

/-- The key/value pair occurs in some record rendered in a section of the
body. -/
def pairInBody (kv : String × JVal) (b : EmailBody) : Prop :=
  ∃ s ∈ b.secs, ∃ r, s.profile = some r ∧ kv ∈ r

/-- Every key/value pair of the record appears in the rendered body. -/
def bodyContainsRec (b : EmailBody) (r : Record) : Prop :=
  ∀ kv ∈ r, pairInBody kv b

/-- Sample raw record used in concrete run instances. -/
def recId : Record := [("id", JVal.num 1)]

/-- `recId` augmented with a true monitor flag. -/
def recIdAug : Record := [("id", JVal.num 1), ("monitor_processes", JVal.bool true)]

/-- A snapshot differing from `recIdAug`. -/
def recOld : Record := [("id", JVal.num 2)]

/-- A world whose fetch always returns a single candidate item. -/
def wOne : World := ⟨fun _ => Except.ok ⟨[recId]⟩, some "ops", some "topic", true⟩

/-- A sample subject. -/
def pA : Person := ⟨"A", true⟩

theorem storeGet_storeSet_self (st : Store) (k : String) (r : Record) :
    storeGet (storeSet st k r) k = some r := by
  induction st with
  | nil => simp [storeGet, storeSet]
  | cons hd tl ih =>
      obtain ⟨k1, r1⟩ := hd
      by_cases h : k1 = k <;> simp [storeGet, storeSet, h, ih]

theorem dictSet_ne_nil (r : Record) (k : String) (v : JVal) : dictSet r k v ≠ [] := by
  cases r with
  | nil => simp [dictSet]
  | cons hd tl =>
      obtain ⟨k1, v1⟩ := hd
      simp only [dictSet]
      split <;> simp

theorem aug_record_ne_nil (result : SearchResult) (m : Bool) (r : Record)
    (h : _get_searched_person_record result m = some r) : r ≠ [] := by
  unfold _get_searched_person_record at h
  cases hres : result.items with
  | nil => rw [hres] at h; exact absurd h (by simp)
  | cons a l =>
      rw [hres] at h
      simp only [Option.some.injEq] at h
      exact h ▸ dictSet_ne_nil a "monitor_processes" (JVal.bool m)

theorem email_body_two_profiles (existing record : Record) (hrec : record ≠ []) :
    ∃ b, _get_person_search_event_email_body (some existing) (some record) = some b ∧
      bodyContainsRec b existing ∧ bodyContainsRec b record := by
  by_cases hex : existing = []
  · subst hex
    refine ⟨⟨"New escavador person search result record.",
            [⟨"New profile:", some record⟩]⟩, ?_, ?_, ?_⟩
    · simp [_get_person_search_event_email_body, truthy]
    · intro kv hkv
      simp at hkv
    · intro kv hkv
      exact ⟨⟨"New profile:", some record⟩, by simp, record, rfl, hkv⟩
  · refine ⟨⟨"Escavador person search result record has differed from existing version.",
            [⟨"New profile:", some existing⟩, ⟨"Existing profile record:", some record⟩]⟩,
          ?_, ?_, ?_⟩
    · simp [_get_person_search_event_email_body, truthy, hex, hrec]
    · intro kv hkv
      exact ⟨⟨"New profile:", some existing⟩, by simp, existing, rfl, hkv⟩
    · intro kv hkv
      exact ⟨⟨"Existing profile record:", some record⟩, by simp, record, rfl, hkv⟩

/-- Claim C1: a subject whose fetch yields at least one item and for which
no snapshot document exists is classified NEW; its processing performs
exactly one store upsert, under the subject's name and equal to the
augmented new record (which the store then holds), and exactly one notifier
invocation, with the new-record framed subject and the single-section body
of the new record. -/
theorem c1_new_subject_is_persisted_and_notified (w : World) (st : Store) (p : Person)
    (result : SearchResult) (record : Record)
    (hf : w.fetch p.name = Except.ok result)
    (hr : _get_searched_person_record result p.monitor_processes = some record)
    (hs : storeGet st p.name = none) :
    (processPerson w st p).classification = Classification.NEW ∧
    ((processPerson w st p).events.filter isStoreSetEv = [Event.storeSetEv p.name record] ∧
      storeGet (processPerson w st p).store p.name = some record) ∧
    (processPerson w st p).events.filter isNotifyEv =
      [Event.notifyEv (EmailSubject.newRecord p.name)
        (some ⟨"New escavador person search result record.",
               [⟨"New profile:", some record⟩]⟩)] := by
  simp [processPerson, hf, hr, hs, _get_person_search_event_email_body, truthy,
        isStoreSetEv, isNotifyEv, storeGet_storeSet_self]

/-- Witness for C1 at a concrete world, empty store and subject. -/
theorem c1_new_subject_is_persisted_and_notified_witness :
    (processPerson wOne [] pA).classification = Classification.NEW :=
  (c1_new_subject_is_persisted_and_notified wOne [] pA ⟨[recId]⟩ recIdAug rfl rfl rfl).1

/-- Claim C2: a subject whose stored snapshot exists and differs from the
augmented new record is classified UPDATED; the stored document is wholly
replaced by the augmented new record in a single upsert, and the notifier
is invoked exactly once with the updated-record framed subject and a body
containing every key/value pair of both the existing and the new record. -/
theorem c2_updated_subject_is_replaced_and_notified (w : World) (st : Store) (p : Person)
    (result : SearchResult) (record existing : Record)
    (hf : w.fetch p.name = Except.ok result)
    (hr : _get_searched_person_record result p.monitor_processes = some record)
    (hs : storeGet st p.name = some existing)
    (hne : dictEq existing record = false) :
    (processPerson w st p).classification = Classification.UPDATED ∧
    ((processPerson w st p).events.filter isStoreSetEv = [Event.storeSetEv p.name record] ∧
      storeGet (processPerson w st p).store p.name = some record) ∧
    ∃ b, (processPerson w st p).events.filter isNotifyEv =
        [Event.notifyEv (EmailSubject.updatedRecord p.name) (some b)] ∧
      bodyContainsRec b existing ∧ bodyContainsRec b record := by
  obtain ⟨b, hb, hbe, hbr⟩ :=
    email_body_two_profiles existing record (aug_record_ne_nil result p.monitor_processes record hr)
  refine ⟨?_, ⟨?_, ?_⟩, b, ?_, hbe, hbr⟩ <;>
    simp [processPerson, hf, hr, hs, hne, hb, isStoreSetEv, isNotifyEv, storeGet_storeSet_self]

/-- Witness for C2 at a concrete world, a one-document store and subject. -/
theorem c2_updated_subject_is_replaced_and_notified_witness :
    (processPerson wOne [("A", recOld)] pA).classification = Classification.UPDATED :=
  (c2_updated_subject_is_replaced_and_notified wOne [("A", recOld)] pA ⟨[recId]⟩
    recIdAug recOld rfl rfl rfl (by decide)).1

/-- Claim C3: a subject whose stored snapshot exists and is structurally
equal to the augmented new record is classified UNCHANGED; its processing
leaves the store untouched and performs no upsert and no notifier call. -/
theorem c3_unchanged_subject_has_no_effects (w : World) (st : Store) (p : Person)
    (result : SearchResult) (record existing : Record)
    (hf : w.fetch p.name = Except.ok result)
    (hr : _get_searched_person_record result p.monitor_processes = some record)
    (hs : storeGet st p.name = some existing)
    (heq : dictEq existing record = true) :
    (processPerson w st p).classification = Classification.UNCHANGED ∧
    (processPerson w st p).store = st ∧
    (processPerson w st p).events.filter (fun e => isStoreSetEv e || isNotifyEv e) = [] := by
  simp [processPerson, hf, hr, hs, heq, isStoreSetEv, isNotifyEv]

/-- Witness for C3 at a concrete world, store and subject. -/
theorem c3_unchanged_subject_has_no_effects_witness :
    (processPerson wOne [("A", recIdAug)] pA).classification = Classification.UNCHANGED :=
  (c3_unchanged_subject_has_no_effects wOne [("A", recIdAug)] pA ⟨[recId]⟩
    recIdAug recIdAug rfl rfl rfl (by decide)).1

/-- A world where the fetch of subject A raises and every other fetch
returns a single candidate item. -/
def wAB : World :=
  ⟨fun n => if n = "A" then Except.error () else Except.ok ⟨[recId]⟩,
   some "ops", some "topic", true⟩

/-- A second sample subject. -/
def pB : Person := ⟨"B", true⟩

theorem runEntries_good_outcome (w : World) (st : Store) (people : List Person) :
    (runEntries w st (people.map ConfigEntry.good)).outcome = RunOutcome.ret 0 := by
  induction people generalizing st with
  | nil => rfl
  | cons p rest ih => simp [runEntries, ih]

/-- Claim C4: a subject whose fetch raises is logged and reported, and the
remaining subjects of the run are processed exactly as they would have been
without it, from the same store; the run still returns 0. -/
theorem c4_subject_failure_is_isolated (w : World) (st : Store) (a : Person)
    (people : List Person)
    (hf : w.fetch a.name = Except.error ()) :
    runEntries w st (ConfigEntry.good a :: people.map ConfigEntry.good) =
      ⟨RunOutcome.ret 0,
       (runEntries w st (people.map ConfigEntry.good)).store,
       [Event.fetchCall a.name, Event.logWarn a.name, Event.reportError] ++
         (runEntries w st (people.map ConfigEntry.good)).events⟩ := by
  have h0 := runEntries_good_outcome w st people
  simp [runEntries, processPerson, hf, h0]

/-- Witness for C4: with subjects A (fetch raises) and B (no snapshot), the
run returns 0 and B is persisted as NEW. -/
theorem c4_subject_failure_is_isolated_witness :
    (runEntries wAB [] (ConfigEntry.good pA :: [pB].map ConfigEntry.good)).outcome
        = RunOutcome.ret 0 ∧
    storeGet (runEntries wAB [] (ConfigEntry.good pA :: [pB].map ConfigEntry.good)).store "B"
        = some recIdAug := by
  rw [c4_subject_failure_is_isolated wAB [] pA [pB] rfl]
  exact ⟨rfl, by decide⟩

/-- Claim C5 (amended): a PEOPLE value that is present but fails JSON
decoding makes the run return 1 immediately, with the store untouched and
zero fetcher, store or notifier calls; a missing PEOPLE value instead
raises an uncaught TypeError out of the run (json.loads of None is not a
JSONDecodeError, the only exception the entry point catches). -/
theorem c5_decode_failure_returns_one (w : World) (st : Store) :
    (search_people_on_escavador ConfigOutcome.decodeError w st).outcome = RunOutcome.ret 1 ∧
    (search_people_on_escavador ConfigOutcome.decodeError w st).store = st ∧
    (search_people_on_escavador ConfigOutcome.decodeError w st).events.filter isCollabCall
        = [] ∧
    (search_people_on_escavador ConfigOutcome.missing w st).outcome = RunOutcome.raised :=
  ⟨rfl, rfl, rfl, rfl⟩

/-- Claim C5 counterexample: with the PEOPLE variable missing, the run does
not return the failure code 1; it ends in an uncaught exception. -/
theorem c5_missing_config_counterexample :
    (search_people_on_escavador ConfigOutcome.missing wOne []).outcome ≠ RunOutcome.ret 1 := by
  decide

/-- Claim C6: for a subject classified NEW or UPDATED the trace is exactly
fetch, store read, store upsert, then the notifier call, so persistence
strictly precedes notification; the resulting store never depends on the
notification configuration; and `_notify_email` catches every failure
internally, returning 1 on any failure (missing TO_EMAILS, missing topic,
failed publish) and 0 on success, never raising to its caller. -/
theorem c6_persist_precedes_notify_and_notify_never_raises (w : World) (st : Store)
    (p : Person)
    (h : (processPerson w st p).classification = Classification.NEW ∨
         (processPerson w st p).classification = Classification.UPDATED) :
    (∃ r s b, (processPerson w st p).events =
        [Event.fetchCall p.name, Event.storeGetEv p.name,
         Event.storeSetEv p.name r, Event.notifyEv s b]) ∧
    (∀ te pt pub, (processPerson ⟨w.fetch, te, pt, pub⟩ st p).store
        = (processPerson w st p).store) ∧
    (∀ s b w2, _notify_email s b w2 =
        if w2.toEmails.isSome && w2.pubSubTopic.isSome && w2.publishOk then 0 else 1) ∧
    (∀ s b w2, _notify_email s b w2 = 0 ∨ _notify_email s b w2 = 1) := by
  refine ⟨?_, ?_, ?_, ?_⟩
  · cases hf : w.fetch p.name with
    | error e => simp [processPerson, hf] at h
    | ok result =>
        cases hr : _get_searched_person_record result p.monitor_processes with
        | none => simp [processPerson, hf, hr] at h
        | some record =>
            cases hs : storeGet st p.name with
            | none =>
                refine ⟨record, EmailSubject.newRecord p.name,
                  _get_person_search_event_email_body none (some record), ?_⟩
                simp [processPerson, hf, hr, hs]
            | some existing =>
                cases hd : dictEq existing record with
                | false =>
                    refine ⟨record, EmailSubject.updatedRecord p.name,
                      _get_person_search_event_email_body (some existing) (some record), ?_⟩
                    simp [processPerson, hf, hr, hs, hd]
                | true => simp [processPerson, hf, hr, hs, hd] at h
  · intro te pt pub
    rfl
  · intro s b w2
    obtain ⟨f, te, pt, pub⟩ := w2
    cases te <;> cases pt <;> cases pub <;> rfl
  · intro s b w2
    obtain ⟨f, te, pt, pub⟩ := w2
    cases te <;> cases pt <;> cases pub <;> simp [_notify_email]

/-- Witness for C6 at a concrete NEW subject and a concrete notifier
environment. -/
theorem c6_persist_precedes_notify_witness :
    _notify_email (EmailSubject.newRecord "A") none wOne = 0 ∨
    _notify_email (EmailSubject.newRecord "A") none wOne = 1 :=
  (c6_persist_precedes_notify_and_notify_never_raises wOne [] pA
    (Or.inl (by decide))).2.2.2 (EmailSubject.newRecord "A") none wOne

/-- Claim C7: with both profiles present (truthy), the body builder renders
the two-section body in which the record supplied as `existing_profile`
appears under the heading labelled New profile and the record supplied as
`new_profile` under the heading labelled Existing profile record (the
historical label/argument swap), and every key/value pair of both records
is present, partitioned into the two sections. -/
theorem c7_body_builder_label_swap (ep np : Record) (hep : ep ≠ []) (hnp : np ≠ []) :
    _get_person_search_event_email_body (some ep) (some np) =
      some ⟨"Escavador person search result record has differed from existing version.",
            [⟨"New profile:", some ep⟩, ⟨"Existing profile record:", some np⟩]⟩ ∧
    bodyContainsRec
      ⟨"Escavador person search result record has differed from existing version.",
       [⟨"New profile:", some ep⟩, ⟨"Existing profile record:", some np⟩]⟩ ep ∧
    bodyContainsRec
      ⟨"Escavador person search result record has differed from existing version.",
       [⟨"New profile:", some ep⟩, ⟨"Existing profile record:", some np⟩]⟩ np := by
  refine ⟨?_, ?_, ?_⟩
  · simp [_get_person_search_event_email_body, truthy, hep, hnp]
  · intro kv hkv
    exact ⟨⟨"New profile:", some ep⟩, by simp, ep, rfl, hkv⟩
  · intro kv hkv
    exact ⟨⟨"Existing profile record:", some np⟩, by simp, np, rfl, hkv⟩

/-- Witness for C7 at two concrete records. -/
theorem c7_body_builder_label_swap_witness :
    _get_person_search_event_email_body (some recOld) (some recIdAug) =
      some ⟨"Escavador person search result record has differed from existing version.",
            [⟨"New profile:", some recOld⟩, ⟨"Existing profile record:", some recIdAug⟩]⟩ :=
  (c7_body_builder_label_swap recOld recIdAug (by decide) (by decide)).1

/-- Claim C8: whatever is upserted during a subject's processing is exactly
the augmentation of the single fetched payload (no re-fetch, no
re-augmentation), it is the very record the snapshot comparison used (for
an existing snapshot, the comparison that decided the write was against
this record), and it is what the store holds afterwards. -/
theorem c8_stored_record_is_the_compared_record (w : World) (st : Store) (p : Person)
    (n : String) (r : Record)
    (h : Event.storeSetEv n r ∈ (processPerson w st p).events) :
    n = p.name ∧
    (∃ result, w.fetch p.name = Except.ok result ∧
      _get_searched_person_record result p.monitor_processes = some r) ∧
    (∀ existing, storeGet st p.name = some existing → dictEq existing r = false) ∧
    storeGet (processPerson w st p).store p.name = some r := by
  cases hf : w.fetch p.name with
  | error e => simp [processPerson, hf, isStoreSetEv] at h
  | ok result =>
      cases hr : _get_searched_person_record result p.monitor_processes with
      | none => simp [processPerson, hf, hr] at h
      | some record =>
          cases hs : storeGet st p.name with
          | none =>
              simp [processPerson, hf, hr, hs] at h
              obtain ⟨hn, hrr⟩ := h
              subst hn
              subst hrr
              refine ⟨rfl, ⟨result, rfl, hr⟩, ?_, ?_⟩
              · intro existing hex
                simp [hs] at hex
              · simp [processPerson, hf, hr, hs, storeGet_storeSet_self]
          | some existing =>
              cases hd : dictEq existing record with
              | false =>
                  simp [processPerson, hf, hr, hs, hd] at h
                  obtain ⟨hn, hrr⟩ := h
                  subst hn
                  subst hrr
                  refine ⟨rfl, ⟨result, rfl, hr⟩, ?_, ?_⟩
                  · intro e2 hex
                    cases hex
                    exact hd
                  · simp [processPerson, hf, hr, hs, hd, storeGet_storeSet_self]
              | true => simp [processPerson, hf, hr, hs, hd] at h

/-- Witness for C8 at a concrete UPDATED subject. -/
theorem c8_stored_record_is_the_compared_record_witness :
    storeGet (processPerson wOne [("A", recOld)] pA).store "A" = some recIdAug :=
  (c8_stored_record_is_the_compared_record wOne [("A", recOld)] pA "A" recIdAug
    (by decide)).2.2.2

theorem dictSet_idem (r : Record) (k : String) (v : JVal) :
    dictSet (dictSet r k v) k v = dictSet r k v := by
  induction r with
  | nil => simp [dictSet]
  | cons hd tl ih =>
      obtain ⟨k1, v1⟩ := hd
      by_cases h : k1 = k <;> simp [dictSet, h, ih]

/-- Claim C9: augmentation is idempotent and deterministic. Re-applying
`_get_searched_person_record` to its own output, wrapped back in the items
shape, returns that output unchanged (setting `monitor_processes` to the
same flag on a record that already has it is the identity), and equal
inputs always yield equal outputs. -/
theorem c9_augmentation_idempotent_and_deterministic (raw : SearchResult) (m : Bool)
    (r : Record)
    (h : _get_searched_person_record raw m = some r) :
    _get_searched_person_record ⟨[r]⟩ m = some r ∧
    ∀ raw2 m2, raw = raw2 → m = m2 →
      _get_searched_person_record raw m = _get_searched_person_record raw2 m2 := by
  constructor
  · unfold _get_searched_person_record at h
    cases hres : raw.items with
    | nil =>
        rw [hres] at h
        exact absurd h (by simp)
    | cons a l =>
        rw [hres] at h
        simp only [Option.some.injEq] at h
        show some (dictSet r "monitor_processes" (JVal.bool m)) = some r
        rw [← h, dictSet_idem]
  · intro raw2 m2 h1 h2
    rw [h1, h2]

/-- Witness for C9 at a concrete payload and flag. -/
theorem c9_augmentation_idempotent_witness :
    _get_searched_person_record ⟨[recIdAug]⟩ true = some recIdAug :=
  (c9_augmentation_idempotent_and_deterministic ⟨[recId]⟩ true recIdAug rfl).1

/-- Claim C10: `_handle_person_new_search_result` has an empty body in the
source (only a docstring), so for every combination of inputs it returns
None, leaves the store exactly as given, and performs no collaborator call;
the batch runner `search_people_on_escavador` contains no call to it. -/
theorem c10_handler_returns_none_with_no_effects (person_new_search_record : Record)
    (person_name : String) (st : Store) :
    _handle_person_new_search_result person_new_search_record person_name st
      = (none, st, []) :=
  rfl

end Escavador
